import Mathlib

/-!
Verification of the multi-tier caching database layer of the station
service (files `src/libs/database/t_user.py`, `t_ans.py`, `t_active.py`,
`t_document.py`, `t_device.py`, and `src/station/shared.py`).

Conventions of the embedding:
* Python `dict`s are association lists (`alistLookup` / `alistInsert` /
  `alistErase`), which mirror `d.get(k)`, `d[k] = v` and `d.pop(k, None)`.
* Python `set`s are duplicate-free lists in insertion order; `setAdd`
  mirrors `s.add(x)` and `setDiscard` mirrors `s.discard(x)`.
* Timestamps are integers; `None` timestamps are `Option Int`.
* The volatile sink (redis) and the durable sink (local storage) are
  modelled as key/value stores with a success flag (`redisOk` / `dosOk`)
  saying whether save calls reach the sink; per the spec a failed sink
  call behaves exactly like "not found" / `False`.
* Sink calls append a `SinkEvent` to a trace, so that statements about
  the order of sink queries ("volatile first, then durable") and about
  both writes being attempted are expressible.
-/

/-- Dictionary lookup, mirroring Python `d.get(key)`. -/
def alistLookup [DecidableEq K] : List (K × V) → K → Option V
  | [], _ => none
  | (k, v) :: rest, key => if k = key then some v else alistLookup rest key

/-- Dictionary update, mirroring Python `d[key] = value` (replaces the
existing binding in place, otherwise appends). -/
def alistInsert [DecidableEq K] : List (K × V) → K → V → List (K × V)
  | [], key, value => [(key, value)]
  | (k, v) :: rest, key, value =>
    if k = key then (key, value) :: rest else (k, v) :: alistInsert rest key value

/-- Dictionary removal, mirroring Python `d.pop(key, None)`. -/
def alistErase [DecidableEq K] : List (K × V) → K → List (K × V)
  | [], _ => []
  | (k, v) :: rest, key =>
    if k = key then alistErase rest key else (k, v) :: alistErase rest key

/-- Python `set.add`: insert if absent (insertion order kept). -/
def setAdd [DecidableEq A] (s : List A) (x : A) : List A :=
  if x ∈ s then s else s ++ [x]

/-- Python `set.discard`: remove the element if present. -/
def setDiscard [DecidableEq A] (s : List A) (x : A) : List A :=
  s.filter (fun y => y ≠ x)

/-- Python `list.remove`: drop the first occurrence. -/
def removeFirst [DecidableEq A] : List A → A → List A
  | [], _ => []
  | x :: xs, y => if x = y then xs else x :: removeFirst xs y

/-- User / entity identifiers (`dimples.ID`). -/
abbrev EntityID := String

/-- A socket address `(host, port)`. -/
abbrev Addr := String × Nat

/-- Events recorded when a sink is consulted, used to state ordering
properties of the cascading read/write. -/
inductive SinkEvent where
  | redisGet
  | dosGet
  | redisSave
  | dosSave
deriving DecidableEq, Repr

/-- Modelled from the spec: a Cache Pool entry
`{value, expireAt, refreshAt}` (`aiou.mem.CachePool` holder, not under
`src/`); `expireAt = now + lifespan`, `refreshAt = now + lifespan − margin`. -/
structure CacheEntry (V : Type) where
  value : V
  expireAt : Int
  refreshAt : Int
deriving DecidableEq, Repr

/-- Make a fresh cache entry at time `now` with the given life span and
refresh margin. -/
def CacheEntry.mk' (value : V) (life margin now : Int) : CacheEntry V :=
  ⟨value, now + life, now + life - margin⟩

/-- Modelled from the spec: `CachePool.fetch` on a keyed pool —
`(nil, false)` on miss or hard expiry, `(value, false)` within the
freshness window, `(value, true)` within the refresh window. -/
def poolFetch [DecidableEq K] (pool : List (K × CacheEntry V)) (key : K) (now : Int) :
    Option V × Bool :=
  match alistLookup pool key with
  | none => (none, false)
  | some e =>
    if now < e.refreshAt then (some e.value, false)
    else if now < e.expireAt then (some e.value, true)
    else (none, false)

/-- Modelled from the spec: `CachePool.fetch` on a single-key slot
(`'all_records'` / `'all_documents'` / `'active_users'`). -/
def slotFetch (slot : Option (CacheEntry V)) (now : Int) : Option V × Bool :=
  match slot with
  | none => (none, false)
  | some e =>
    if now < e.refreshAt then (some e.value, false)
    else if now < e.expireAt then (some e.value, true)
    else (none, false)

/-- Modelled from the spec: `CachePool.update(key, value, lifespan, now)`. -/
def poolUpdate [DecidableEq K] (pool : List (K × CacheEntry V)) (key : K) (value : V)
    (life margin now : Int) : List (K × CacheEntry V) :=
  alistInsert pool key (CacheEntry.mk' value life margin now)

/-- Default memory-cache life span of a `DbTask` (seconds). -/
def MEM_CACHE_EXPIRES : Int := 36000

/-- Default refresh margin of a `DbTask` (seconds). -/
def MEM_CACHE_REFRESH : Int := 600

/-- Modelled from the spec: `dimples.utils.is_before(old_time, new_time)`
(not under `src/`) — whether the new time is strictly before the old
time; `False` when either side is missing. -/
def is_before (old_time new_time : Option Int) : Bool :=
  match old_time, new_time with
  | some o, some n => n < o
  | _, _ => false

/-- Python truthiness of an `Optional[bool]` (`None` and `False` are
both falsy). -/
def truthy : Option Bool → Bool
  | some b => b
  | none => false

/-- Outcome of a Python call that may raise: `raised` stands for a
propagating TypeError/ValueError, `ok` for a normal return. -/
inductive PyResult (α : Type) where
  | raised
  | ok (value : α)
deriving DecidableEq, Repr

/-- Whether a freshness-check outcome makes the caller's `if` guard
drop the incoming command: only a returned truthy value does; a falsy
return proceeds to the save, and a raised exception propagates without
the guard ever being evaluated. -/
def rejects : PyResult (Option Bool) → Bool
  | PyResult.ok e => truthy e
  | PyResult.raised => false

/-!  ## Command records (`src/libs/database/t_user.py`)

`ConTask` (contacts command) and `BloTask` (block command) share one
state shape: a cache pool keyed by user, a redis store and a local
(dos) store of commands.  -/

/-- A command record carrying a logical send time (`Command.time`). -/
structure Cmd where
  time : Option Int
  body : String
deriving DecidableEq, Repr

/-- State touched by the command-record tasks of `UserTable`. -/
structure CmdState where
  pool : List (EntityID × CacheEntry Cmd)
  redis : List (EntityID × Cmd)
  dos : List (EntityID × Cmd)
  redisOk : Bool
  dosOk : Bool
  trace : List SinkEvent
deriving DecidableEq, Repr

namespace ConTask

/-- `ConTask._read_data` (t_user.py lines 86-96): redis first, then local
storage, back-filling redis on a durable hit. -/
def read_data (st : CmdState) (user : EntityID) : Option Cmd × CmdState :=
  let st := { st with trace := st.trace ++ [SinkEvent.redisGet] }
  match alistLookup st.redis user with
  | some cmd => (some cmd, st)
  | none =>
    let st := { st with trace := st.trace ++ [SinkEvent.dosGet] }
    match alistLookup st.dos user with
    | some cmd =>
      let st := { st with trace := st.trace ++ [SinkEvent.redisSave] }
      let st := if st.redisOk then { st with redis := alistInsert st.redis user cmd } else st
      (some cmd, st)
    | none => (none, st)

/-- `ConTask._write_data` (t_user.py lines 99-104): store into redis,
save into local storage, report `ok1 or ok2`. -/
def write_data (st : CmdState) (user : EntityID) (value : Cmd) : Bool × CmdState :=
  let st := { st with trace := st.trace ++ [SinkEvent.redisSave] }
  let ok1 := st.redisOk
  let st := if ok1 then { st with redis := alistInsert st.redis user value } else st
  let st := { st with trace := st.trace ++ [SinkEvent.dosSave] }
  let ok2 := st.dosOk
  let st := if ok2 then { st with dos := alistInsert st.dos user value } else st
  (ok1 || ok2, st)

/-- Modelled from the spec: `dimples.database.DbTask.load` (not under
`src/`) — consult the Cache Pool; if fresh return immediately; within
the refresh window refresh synchronously, keeping the stale value when
the cascading read finds nothing; on a miss run the cascading read and
cache a found value (hard negatives are not cached). -/
def load (st : CmdState) (now : Int) (user : EntityID) : Option Cmd × CmdState :=
  match poolFetch st.pool user now with
  | (some v, false) => (some v, st)
  | (some v, true) =>
    match read_data st user with
    | (some w, st) =>
      (some w, { st with pool := poolUpdate st.pool user w MEM_CACHE_EXPIRES MEM_CACHE_REFRESH now })
    | (none, st) => (some v, st)
  | (none, _) =>
    match read_data st user with
    | (some w, st) =>
      (some w, { st with pool := poolUpdate st.pool user w MEM_CACHE_EXPIRES MEM_CACHE_REFRESH now })
    | (none, st) => (none, st)

/-- Modelled from the spec: `dimples.database.DbTask.save` (not under
`src/`) — run the two-sink write cascade, then always update the Cache
Pool with the new value regardless of the sinks' outcomes. -/
def save (st : CmdState) (now : Int) (user : EntityID) (value : Cmd) : CmdState × Bool :=
  let (ok, st) := write_data st user value
  ({ st with pool := poolUpdate st.pool user value MEM_CACHE_EXPIRES MEM_CACHE_REFRESH now }, ok)

end ConTask

namespace UserTable

/-- `UserTable.get_contacts_command` (t_user.py lines 238-240). -/
def get_contacts_command (st : CmdState) (now : Int) (identifier : EntityID) :
    Option Cmd × CmdState :=
  ConTask.load st now identifier

/-- `UserTable._is_contacts_expired` (t_user.py lines 219-228), embedded
with its error path: the early guards return `False`; for a positive
incoming time, line 225 executes
`old, _ = await self.get_contacts_command(identifier=user)`, a
two-element tuple unpack of the single-valued `get_contacts_command`
result, which raises after the load's state effects have been applied
(TypeError when the result is `None`, ValueError when it is a `Command`
mapping), so the comparison on lines 226-228 is unreachable. -/
def is_contacts_expired (st : CmdState) (now : Int) (user : EntityID) (content : Cmd) :
    PyResult (Option Bool) × CmdState :=
  match content.time with
  | none => (PyResult.ok (some false), st)
  | some new_time =>
    if new_time ≤ 0 then (PyResult.ok (some false), st)
    else
      let (_, st) := get_contacts_command st now user
      (PyResult.raised, st)

/-- `UserTable.save_contacts_command` (t_user.py lines 230-236): an
exception raised inside `_is_contacts_expired` propagates to the
caller; a falsy check outcome lets the command be saved through the
write cascade. -/
def save_contacts_command (st : CmdState) (now : Int) (identifier : EntityID)
    (content : Cmd) : CmdState × PyResult Bool :=
  match is_contacts_expired st now identifier content with
  | (PyResult.raised, st) => (st, PyResult.raised)
  | (PyResult.ok e, st) =>
    if truthy e then (st, PyResult.ok false)
    else
      let (st, ok) := ConTask.save st now identifier content
      (st, PyResult.ok ok)

end UserTable

namespace BloTask

/-- `BloTask._read_data` (t_user.py lines 110-120). -/
def read_data (st : CmdState) (user : EntityID) : Option Cmd × CmdState :=
  let st := { st with trace := st.trace ++ [SinkEvent.redisGet] }
  match alistLookup st.redis user with
  | some cmd => (some cmd, st)
  | none =>
    let st := { st with trace := st.trace ++ [SinkEvent.dosGet] }
    match alistLookup st.dos user with
    | some cmd =>
      let st := { st with trace := st.trace ++ [SinkEvent.redisSave] }
      let st := if st.redisOk then { st with redis := alistInsert st.redis user cmd } else st
      (some cmd, st)
    | none => (none, st)

/-- `BloTask._write_data` (t_user.py lines 123-128). -/
def write_data (st : CmdState) (user : EntityID) (value : Cmd) : Bool × CmdState :=
  let st := { st with trace := st.trace ++ [SinkEvent.redisSave] }
  let ok1 := st.redisOk
  let st := if ok1 then { st with redis := alistInsert st.redis user value } else st
  let st := { st with trace := st.trace ++ [SinkEvent.dosSave] }
  let ok2 := st.dosOk
  let st := if ok2 then { st with dos := alistInsert st.dos user value } else st
  (ok1 || ok2, st)

/-- Modelled from the spec: `dimples.database.DbTask.load` for the
block-command task (see `ConTask.load`). -/
def load (st : CmdState) (now : Int) (user : EntityID) : Option Cmd × CmdState :=
  match poolFetch st.pool user now with
  | (some v, false) => (some v, st)
  | (some v, true) =>
    match read_data st user with
    | (some w, st) =>
      (some w, { st with pool := poolUpdate st.pool user w MEM_CACHE_EXPIRES MEM_CACHE_REFRESH now })
    | (none, st) => (some v, st)
  | (none, _) =>
    match read_data st user with
    | (some w, st) =>
      (some w, { st with pool := poolUpdate st.pool user w MEM_CACHE_EXPIRES MEM_CACHE_REFRESH now })
    | (none, st) => (none, st)

/-- Modelled from the spec: `dimples.database.DbTask.save` for the
block-command task (see `ConTask.save`). -/
def save (st : CmdState) (now : Int) (user : EntityID) (value : Cmd) : CmdState × Bool :=
  let (ok, st) := write_data st user value
  ({ st with pool := poolUpdate st.pool user value MEM_CACHE_EXPIRES MEM_CACHE_REFRESH now }, ok)

end BloTask

namespace UserTable

/-- `UserTable.get_block_command` (t_user.py lines 265-267). -/
def get_block_command (st : CmdState) (now : Int) (identifier : EntityID) :
    Option Cmd × CmdState :=
  BloTask.load st now identifier

/-- `UserTable._is_blocked_expired` (t_user.py lines 246-255), embedded
as written: the "command expired" branch returns `False`, and the final
path falls off the end of the function (Python `None`). -/
def is_blocked_expired (st : CmdState) (now : Int) (user : EntityID) (content : Cmd) :
    Option Bool × CmdState :=
  match content.time with
  | none => (some false, st)
  | some new_time =>
    if new_time ≤ 0 then (some false, st)
    else
      let (old, st) := get_block_command st now user
      match old with
      | some o =>
        if is_before o.time (some new_time) then (some false, st)
        else (none, st)
      | none => (none, st)

/-- `UserTable.save_block_command` (t_user.py lines 257-263). -/
def save_block_command (st : CmdState) (now : Int) (identifier : EntityID)
    (content : Cmd) : CmdState × Bool :=
  let (e, st) := is_blocked_expired st now identifier content
  if truthy e then (st, false)
  else BloTask.save st now identifier content

end UserTable

/-!  ## Contact lists (`UsrTask` in `src/libs/database/t_user.py`) -/

/-- State touched by the contacts-list task of `UserTable`. -/
structure UsrState where
  pool : List (EntityID × CacheEntry (List EntityID))
  redis : List (EntityID × List EntityID)
  dos : List (EntityID × List EntityID)
  redisOk : Bool
  dosOk : Bool
  trace : List SinkEvent
deriving DecidableEq, Repr

namespace UsrTask

/-- `UsrTask._read_data` (t_user.py lines 62-72): ask redis; on a miss
ask local storage; on a durable hit back-fill redis and return. -/
def read_data (st : UsrState) (user : EntityID) : Option (List EntityID) × UsrState :=
  let st := { st with trace := st.trace ++ [SinkEvent.redisGet] }
  match alistLookup st.redis user with
  | some contacts => (some contacts, st)
  | none =>
    let st := { st with trace := st.trace ++ [SinkEvent.dosGet] }
    match alistLookup st.dos user with
    | some contacts =>
      let st := { st with trace := st.trace ++ [SinkEvent.redisSave] }
      let st := if st.redisOk then { st with redis := alistInsert st.redis user contacts } else st
      (some contacts, st)
    | none => (none, st)

/-- `UsrTask._write_data` (t_user.py lines 75-80): store into redis,
save into local storage, report `ok1 or ok2`. -/
def write_data (st : UsrState) (user : EntityID) (value : List EntityID) :
    Bool × UsrState :=
  let st := { st with trace := st.trace ++ [SinkEvent.redisSave] }
  let ok1 := st.redisOk
  let st := if ok1 then { st with redis := alistInsert st.redis user value } else st
  let st := { st with trace := st.trace ++ [SinkEvent.dosSave] }
  let ok2 := st.dosOk
  let st := if ok2 then { st with dos := alistInsert st.dos user value } else st
  (ok1 || ok2, st)

end UsrTask

/-!  ## Documents (`src/libs/database/t_document.py`) -/

/-- An identity document: owner, document type, signing time, body. -/
structure Doc where
  identifier : EntityID
  docType : String
  time : Option Int
  body : String
deriving DecidableEq, Repr

/-- Modelled from the spec: `DocumentUtils.get_document_type` (dimples,
not under `src/`) — classify the incoming document by its type. -/
def get_document_type (document : Doc) : String :=
  document.docType

/-- A document's time for ordering purposes (missing time = 0). -/
def docTime (d : Doc) : Int :=
  d.time.getD 0

/-- Modelled from the spec: `DocumentUtils.last_document(documents,
doc_type)` (dimples, not under `src/`) — the most recent existing
document of the given type (a later list position wins ties). -/
def last_document (documents : List Doc) (docType : String) : Option Doc :=
  documents.foldl
    (fun acc d =>
      if d.docType = docType then
        match acc with
        | none => some d
        | some best => if docTime best ≤ docTime d then some d else acc
      else acc)
    none

/-- Modelled from the spec: `DocumentUtils.is_expired(document, old)`
(dimples, not under `src/`) — the incoming document is rejected when it
is not newer (by time) than the old one. -/
def doc_is_expired (document old : Doc) : Bool :=
  docTime document ≤ docTime old

/-- `ScanTask.MEM_CACHE_EXPIRES` (t_document.py line 81). -/
def SCAN_CACHE_EXPIRES : Int := 3600

/-- `ScanTask.MEM_CACHE_REFRESH` (t_document.py line 82). -/
def SCAN_CACHE_REFRESH : Int := 600

/-- State touched by `DocumentTable`: the per-identifier pool entries,
the single `'all_documents'` scan slot, and the two sinks. -/
structure DocState where
  pool : List (EntityID × CacheEntry (List Doc))
  poolAll : Option (CacheEntry (List Doc))
  redis : List (EntityID × List Doc)
  dos : List (EntityID × List Doc)
  redisOk : Bool
  dosOk : Bool
  trace : List SinkEvent
deriving DecidableEq, Repr

namespace DocTask

/-- `DocTask._read_data` (t_document.py lines 56-66): redis first (an
empty list counts as a miss), then local storage, back-filling redis on
a durable hit. -/
def read_data (st : DocState) (identifier : EntityID) : Option (List Doc) × DocState :=
  let st := { st with trace := st.trace ++ [SinkEvent.redisGet] }
  match alistLookup st.redis identifier with
  | some docs =>
    if docs.length > 0 then (some docs, st)
    else
      let st := { st with trace := st.trace ++ [SinkEvent.dosGet] }
      match alistLookup st.dos identifier with
      | some docs2 =>
        if docs2.length > 0 then
          let st := { st with trace := st.trace ++ [SinkEvent.redisSave] }
          let st :=
            if st.redisOk then { st with redis := alistInsert st.redis identifier docs2 } else st
          (some docs2, st)
        else (none, st)
      | none => (none, st)
  | none =>
    let st := { st with trace := st.trace ++ [SinkEvent.dosGet] }
    match alistLookup st.dos identifier with
    | some docs2 =>
      if docs2.length > 0 then
        let st := { st with trace := st.trace ++ [SinkEvent.redisSave] }
        let st :=
          if st.redisOk then { st with redis := alistInsert st.redis identifier docs2 } else st
        (some docs2, st)
      else (none, st)
    | none => (none, st)

/-- `DocTask._write_data` (t_document.py lines 69-74): store into redis,
save into local storage, report `ok1 or ok2`. -/
def write_data (st : DocState) (identifier : EntityID) (value : List Doc) :
    Bool × DocState :=
  let st := { st with trace := st.trace ++ [SinkEvent.redisSave] }
  let ok1 := st.redisOk
  let st := if ok1 then { st with redis := alistInsert st.redis identifier value } else st
  let st := { st with trace := st.trace ++ [SinkEvent.dosSave] }
  let ok2 := st.dosOk
  let st := if ok2 then { st with dos := alistInsert st.dos identifier value } else st
  (ok1 || ok2, st)

/-- Modelled from the spec: `dimples.database.DbTask.load` for the
per-identifier document task (see `ConTask.load`). -/
def load (st : DocState) (now : Int) (identifier : EntityID) :
    Option (List Doc) × DocState :=
  match poolFetch st.pool identifier now with
  | (some v, false) => (some v, st)
  | (some v, true) =>
    match read_data st identifier with
    | (some w, st) =>
      (some w,
        { st with pool := poolUpdate st.pool identifier w MEM_CACHE_EXPIRES MEM_CACHE_REFRESH now })
    | (none, st) => (some v, st)
  | (none, _) =>
    match read_data st identifier with
    | (some w, st) =>
      (some w,
        { st with pool := poolUpdate st.pool identifier w MEM_CACHE_EXPIRES MEM_CACHE_REFRESH now })
    | (none, st) => (none, st)

/-- Modelled from the spec: `dimples.database.DbTask.save` for the
per-identifier document task (see `ConTask.save`). -/
def save (st : DocState) (now : Int) (identifier : EntityID) (value : List Doc) :
    DocState × Bool :=
  let (ok, st) := write_data st identifier value
  ({ st with
      pool := poolUpdate st.pool identifier value MEM_CACHE_EXPIRES MEM_CACHE_REFRESH now },
    ok)

end DocTask

namespace DocumentTable

/-- `DocumentTable.get_documents` (t_document.py lines 159-165):
`[]` when the load finds nothing. -/
def get_documents (st : DocState) (now : Int) (identifier : EntityID) :
    List Doc × DocState :=
  let (docs, st) := DocTask.load st now identifier
  (docs.getD [], st)

/-- The selection of the superseded document in
`DocumentTable.save_document` (t_document.py lines 137-139): the most
recent document of the same type, falling back to the legacy
`'profile'` type when a `'visa'` has no typed predecessor. -/
def find_old (my_documents : List Doc) (doc_type : String) : Option Doc :=
  match last_document my_documents doc_type with
  | some o => some o
  | none => if doc_type = "visa" then last_document my_documents "profile" else none

/-- The in-place append to a live `'all_documents'` scan-cache entry in
`DocumentTable.save_document` (t_document.py lines 147-151): the list
held by a non-expired entry is mutated in place, keeping the entry's
expiry times. -/
def append_scan_cache (st : DocState) (now : Int) (document : Doc) : DocState :=
  match st.poolAll with
  | some e =>
    if (slotFetch st.poolAll now).1.isSome then
      { st with poolAll := some { e with value := e.value ++ [document] } }
    else st
  | none => st

/-- `DocumentTable.save_document` (t_document.py lines 129-156):
reject an incoming document that is not newer than the comparable
stored one; otherwise replace the superseded document, append the new
document to a live `'all_documents'` scan-cache entry in place, and
persist the identifier's full document list through the write cascade. -/
def save_document (st : DocState) (now : Int) (document : Doc) : DocState × Bool :=
  let identifier := document.identifier
  let doc_type := get_document_type document
  let (my_documents, st) := get_documents st now identifier
  match find_old my_documents doc_type with
  | some o =>
    if doc_is_expired document o then (st, false)
    else
      let docs := removeFirst my_documents o ++ [document]
      let st := append_scan_cache st now document
      DocTask.save st now identifier docs
  | none =>
    let docs := my_documents ++ [document]
    let st := append_scan_cache st now document
    DocTask.save st now identifier docs

end DocumentTable

/-!  ## Device lists (`src/libs/database/t_device.py`) -/

/-- A device descriptor, opaque for the write cascade. -/
abbrev DeviceInfo := String

/-- State touched by the device task of `DeviceTable`. -/
structure DevState where
  pool : List (EntityID × CacheEntry (List DeviceInfo))
  redis : List (EntityID × List DeviceInfo)
  dos : List (EntityID × List DeviceInfo)
  redisOk : Bool
  dosOk : Bool
  trace : List SinkEvent
deriving DecidableEq, Repr

namespace DevTask

/-- `DevTask._write_data` (t_device.py lines 68-73): store into redis,
save into local storage, report `ok1 or ok2`. -/
def write_data (st : DevState) (identifier : EntityID) (value : List DeviceInfo) :
    Bool × DevState :=
  let st := { st with trace := st.trace ++ [SinkEvent.redisSave] }
  let ok1 := st.redisOk
  let st := if ok1 then { st with redis := alistInsert st.redis identifier value } else st
  let st := { st with trace := st.trace ++ [SinkEvent.dosSave] }
  let ok2 := st.dosOk
  let st := if ok2 then { st with dos := alistInsert st.dos identifier value } else st
  (ok1 || ok2, st)

end DevTask

/-!  ## Address-name registry (`src/libs/database/t_ans.py`) -/

/-- State of `AddressNameTable`: one shared cache pool (split here into
its three disjoint key namespaces: the `'all_records'` slot, per-name
entries — whose cached value may be a confirmed negative — and
per-identifier reverse entries), the volatile sink's single-name and
single-identifier records, and the durable all-records blob. -/
structure AnsState where
  poolAll : Option (CacheEntry (List (String × EntityID)))
  poolNames : List (String × CacheEntry (Option EntityID))
  poolIds : List (EntityID × CacheEntry (List String))
  redisRecords : List (String × EntityID)
  redisNames : List (EntityID × List String)
  dosRecords : Option (List (String × EntityID))
  redisOk : Bool
  dosOk : Bool
deriving DecidableEq, Repr

namespace AllTask

/-- `AllTask._read_data` (t_ans.py lines 60-61): load the all-records
blob from local storage only. -/
def read_data (st : AnsState) : Option (List (String × EntityID)) :=
  st.dosRecords

/-- Modelled from the spec: `dimples.database.DbTask.load` for the
all-records task (see `ConTask.load`). -/
def load (st : AnsState) (now : Int) : Option (List (String × EntityID)) × AnsState :=
  match slotFetch st.poolAll now with
  | (some v, false) => (some v, st)
  | (some v, true) =>
    match read_data st with
    | some w =>
      (some w,
        { st with poolAll := some (CacheEntry.mk' w MEM_CACHE_EXPIRES MEM_CACHE_REFRESH now) })
    | none => (some v, st)
  | (none, _) =>
    match read_data st with
    | some w =>
      (some w,
        { st with poolAll := some (CacheEntry.mk' w MEM_CACHE_EXPIRES MEM_CACHE_REFRESH now) })
    | none => (none, st)

end AllTask

namespace IdTask

/-- `IdTask._read_data` (t_ans.py lines 82-83): the volatile sink's
single-name record. -/
def read_data (st : AnsState) (name : String) : Option EntityID :=
  alistLookup st.redisRecords name

/-- Modelled from the spec: `dimples.database.DbTask.load` for the
per-name task; the cached value may itself be a confirmed negative,
which is returned without reloading (see `ConTask.load`). -/
def load (st : AnsState) (now : Int) (name : String) : Option EntityID × AnsState :=
  match poolFetch st.poolNames name now with
  | (some v, false) => (v, st)
  | (some v, true) =>
    match read_data st name with
    | some i =>
      (some i,
        { st with
            poolNames := poolUpdate st.poolNames name (some i)
              MEM_CACHE_EXPIRES MEM_CACHE_REFRESH now })
    | none => (v, st)
  | (none, _) =>
    match read_data st name with
    | some i =>
      (some i,
        { st with
            poolNames := poolUpdate st.poolNames name (some i)
              MEM_CACHE_EXPIRES MEM_CACHE_REFRESH now })
    | none => (none, st)

end IdTask

namespace NameTask

/-- `NameTask._read_data` (t_ans.py lines 104-105): the volatile sink's
single-identifier reverse record. -/
def read_data (st : AnsState) (identifier : EntityID) : Option (List String) :=
  alistLookup st.redisNames identifier

/-- Modelled from the spec: `dimples.database.DbTask.load` for the
per-identifier reverse task (see `ConTask.load`). -/
def load (st : AnsState) (now : Int) (identifier : EntityID) :
    Option (List String) × AnsState :=
  match poolFetch st.poolIds identifier now with
  | (some v, false) => (some v, st)
  | (some v, true) =>
    match read_data st identifier with
    | some w =>
      (some w,
        { st with
            poolIds := poolUpdate st.poolIds identifier w
              MEM_CACHE_EXPIRES MEM_CACHE_REFRESH now })
    | none => (some v, st)
  | (none, _) =>
    match read_data st identifier with
    | some w =>
      (some w,
        { st with
            poolIds := poolUpdate st.poolIds identifier w
              MEM_CACHE_EXPIRES MEM_CACHE_REFRESH now })
    | none => (none, st)

end NameTask

/-- `get_names(records, identifier)` (t_ans.py lines 211-216): linear
scan of the all-records blob for every name bound to the identifier. -/
def scanNames (records : List (String × EntityID)) (identifier : EntityID) : List String :=
  records.foldl (fun strings kv => if kv.2 = identifier then setAdd strings kv.1 else strings) []

namespace AddressNameTable

/-- `AddressNameTable._load_records` (t_ans.py lines 136-139). -/
def load_records (st : AnsState) (now : Int) : List (String × EntityID) × AnsState :=
  let (records, st) := AllTask.load st now
  (records.getD [], st)

/-- `AddressNameTable.save_record` (t_ans.py lines 141-160): erase the
reverse-index cache entry keyed by the incoming identifier, mutate the
all-records blob in memory, update the all-records cache entry, mirror
the single record into the volatile sink (outcome ignored), persist the
full blob to the durable sink and return that sink's outcome. -/
def save_record (st : AnsState) (now : Int) (name : String) (identifier : EntityID) :
    AnsState × Bool :=
  let st := { st with poolIds := alistErase st.poolIds identifier }
  let (all_records, st) := load_records st now
  let all_records := alistInsert all_records name identifier
  let st :=
    { st with
        poolAll := some (CacheEntry.mk' all_records MEM_CACHE_EXPIRES MEM_CACHE_REFRESH now) }
  let st :=
    if st.redisOk then { st with redisRecords := alistInsert st.redisRecords name identifier }
    else st
  let st := if st.dosOk then { st with dosRecords := some all_records } else st
  (st, st.dosOk)

/-- `AddressNameTable.get_record` (t_ans.py lines 162-184): per-name
task first; on a miss look the name up in the all-records blob, mirror
a hit into the volatile sink, and cache the result (negatives
included). -/
def get_record (st : AnsState) (now : Int) (name : String) : Option EntityID × AnsState :=
  let (did, st) := IdTask.load st now name
  match did with
  | some i => (some i, st)
  | none =>
    let (all_records, st) := AllTask.load st now
    let did :=
      match all_records with
      | some blob => alistLookup blob name
      | none => none
    let st :=
      match did with
      | some i =>
        if st.redisOk then { st with redisRecords := alistInsert st.redisRecords name i }
        else st
      | none => st
    let st :=
      { st with
          poolNames := poolUpdate st.poolNames name did MEM_CACHE_EXPIRES MEM_CACHE_REFRESH now }
    (did, st)

/-- `AddressNameTable.get_names` (t_ans.py lines 186-208): reverse task
first; on a miss scan the all-records blob and cache the computed set. -/
def get_names (st : AnsState) (now : Int) (identifier : EntityID) :
    List String × AnsState :=
  let (names, st) := NameTask.load st now identifier
  match names with
  | some s => (s, st)
  | none =>
    let (all_records, st) := AllTask.load st now
    let names :=
      match all_records with
      | some blob => scanNames blob identifier
      | none => []
    let st :=
      { st with
          poolIds := poolUpdate st.poolIds identifier names MEM_CACHE_EXPIRES MEM_CACHE_REFRESH now }
    (names, st)

end AddressNameTable

/-!  ## Presence / socket addresses (`src/libs/database/t_active.py`,
`src/station/shared.py`) -/

/-- `ActTask.MEM_CACHE_EXPIRES` (t_active.py line 40). -/
def ACT_CACHE_EXPIRES : Int := 60

/-- `ActTask.MEM_CACHE_REFRESH` (t_active.py line 41). -/
def ACT_CACHE_REFRESH : Int := 8

/-- State of `ActiveTable`: the in-process identifier → socket-set map,
the `'active_users'` cache-pool slot, and the volatile sink's presence
records (there is no durable sink for presence). -/
structure ActiveState where
  socketAddress : List (EntityID × List Addr)
  poolActive : Option (CacheEntry (List EntityID))
  redisActive : Option (List EntityID)
  redisSockets : List (EntityID × List Addr)
deriving DecidableEq, Repr

namespace ActTask

/-- `ActTask._read_data` (t_active.py lines 56-61): ask the volatile
sink only; an absent or empty set is reported as `None`. -/
def read_data (st : ActiveState) : Option (List EntityID) :=
  match st.redisActive with
  | none => none
  | some users => if users.length = 0 then none else some users

/-- Modelled from the spec: `dimples.database.DbTask.load` for the
active-users task, with the task's 60s/8s cache windows (see
`ConTask.load`). -/
def load (st : ActiveState) (now : Int) : Option (List EntityID) × ActiveState :=
  match slotFetch st.poolActive now with
  | (some v, false) => (some v, st)
  | (some v, true) =>
    match read_data st with
    | some w =>
      (some w,
        { st with poolActive := some (CacheEntry.mk' w ACT_CACHE_EXPIRES ACT_CACHE_REFRESH now) })
    | none => (some v, st)
  | (none, _) =>
    match read_data st with
    | some w =>
      (some w,
        { st with poolActive := some (CacheEntry.mk' w ACT_CACHE_EXPIRES ACT_CACHE_REFRESH now) })
    | none => (none, st)

end ActTask

namespace ActiveTable

/-- `ActiveTable.get_active_users` (t_active.py lines 89-93). -/
def get_active_users (st : ActiveState) (now : Int) : List EntityID × ActiveState :=
  let (users, st) := ActTask.load st now
  (users.getD [], st)

/-- `ActiveTable.clear_socket_addresses` (t_active.py lines 83-87):
erase the cached `'active_users'` entry and ask the volatile sink to
clear its presence records (`LoginCache.clear_socket_addresses` is not
under `src/`; modelled from the spec as clearing the sink's presence
state). -/
def clear_socket_addresses (st : ActiveState) : ActiveState :=
  { st with poolActive := none, redisActive := none, redisSockets := [] }

/-- `ActiveTable.add_socket_address` (t_active.py lines 95-106): add the
address into the identifier's local socket set (created lazily), then
mirror the full set into the volatile sink. -/
def add_socket_address (st : ActiveState) (identifier : EntityID) (address : Addr) :
    ActiveState × List Addr :=
  let sockets := (alistLookup st.socketAddress identifier).getD []
  let sockets := setAdd sockets address
  let st := { st with socketAddress := alistInsert st.socketAddress identifier sockets }
  let st := { st with redisSockets := alistInsert st.redisSockets identifier sockets }
  (st, sockets)

/-- `ActiveTable.remove_socket_address` (t_active.py lines 108-120):
discard the address from the identifier's local socket set, dropping
the map entry entirely once the set is empty, then mirror the updated
set (or its removal) into the volatile sink. -/
def remove_socket_address (st : ActiveState) (identifier : EntityID) (address : Addr) :
    ActiveState × Option (List Addr) :=
  match alistLookup st.socketAddress identifier with
  | none =>
    let st := { st with redisSockets := alistErase st.redisSockets identifier }
    (st, none)
  | some sockets =>
    let sockets := setDiscard sockets address
    if sockets.length = 0 then
      let st :=
        { st with
            socketAddress := alistErase st.socketAddress identifier,
            redisSockets := alistErase st.redisSockets identifier }
      (st, none)
    else
      let st :=
        { st with
            socketAddress := alistInsert st.socketAddress identifier sockets,
            redisSockets := alistInsert st.redisSockets identifier sockets }
      (st, some sockets)

end ActiveTable

/-- A socket-map operation, for stating invariants over arbitrary call
sequences. -/
inductive SockOp where
  | add (identifier : EntityID) (address : Addr)
  | remove (identifier : EntityID) (address : Addr)
deriving DecidableEq, Repr

/-- Run a sequence of socket-map operations against an `ActiveTable`
state. -/
def runSockOps (st : ActiveState) : List SockOp → ActiveState
  | [] => st
  | SockOp.add i a :: rest => runSockOps (ActiveTable.add_socket_address st i a).1 rest
  | SockOp.remove i a :: rest => runSockOps (ActiveTable.remove_socket_address st i a).1 rest

/-- `ActiveTable.__init__` (t_active.py lines 70-73): the local socket
map starts empty. -/
def initialActiveState (redisActive : Option (List EntityID))
    (redisSockets : List (EntityID × List Addr)) : ActiveState :=
  { socketAddress := [], poolActive := none,
    redisActive := redisActive, redisSockets := redisSockets }

/-- `create_database` (station/shared.py lines 185-196): the database is
created and `clear_socket_addresses` is called on it exactly once
("clear before station start") before the database is handed to the
station; of that routine this model keeps the presence state it
touches. -/
def create_database (st : ActiveState) : ActiveState :=
  ActiveTable.clear_socket_addresses st

/-- The time=100 command already accepted for user `"u"`. -/
def cmd100 : Cmd := ⟨some 100, "old"⟩

/-- The stale incoming command with time=50. -/
def cmd50 : Cmd := ⟨some 50, "new"⟩

/-- Command-record state after `cmd100` was accepted for `"u"` at time 0:
the record sits in the cache pool, in redis and in local storage, and
both sinks are up. -/
def cmdSt100 : CmdState :=
  { pool := [("u", CacheEntry.mk' cmd100 MEM_CACHE_EXPIRES MEM_CACHE_REFRESH 0)]
    redis := [("u", cmd100)]
    dos := [("u", cmd100)]
    redisOk := true
    dosOk := true
    trace := [] }

/-- Invariant of the local socket-address map: every identifier present
has a non-empty socket set. -/
def sockInvariant (m : List (EntityID × List Addr)) : Prop :=
  ∀ p ∈ m, p.2 ≠ []

/-- An empty address-name registry with both sinks up. -/
def ansSt0 : AnsState :=
  { poolAll := none, poolNames := [], poolIds := [],
    redisRecords := [], redisNames := [], dosRecords := none,
    redisOk := true, dosOk := true }

/-- An address-name registry whose durable blob already binds
`"alice"` to `"idA"`, with cold caches and both sinks up. -/
def ansSt1 : AnsState :=
  { poolAll := none, poolNames := [], poolIds := [],
    redisRecords := [], redisNames := [], dosRecords := some [("alice", "idA")],
    redisOk := true, dosOk := true }

/-- A presence state whose cache pool holds a fresh `'active_users'`
entry `["A"]` (written at time 0) while the volatile sink currently
reports `["B"]`. -/
def actStA : ActiveState :=
  { socketAddress := [],
    poolActive := some (CacheEntry.mk' ["A"] ACT_CACHE_EXPIRES ACT_CACHE_REFRESH 0),
    redisActive := some ["B"],
    redisSockets := [] }

/-- A presence state carrying socket-address state in every structure:
the local map, the cached `'active_users'` entry and the volatile sink. -/
def actStBob : ActiveState :=
  { socketAddress := [("bob", [("h", 1)])],
    poolActive := some (CacheEntry.mk' ["bob"] ACT_CACHE_EXPIRES ACT_CACHE_REFRESH 0),
    redisActive := some ["bob"],
    redisSockets := [("bob", [("h", 1)])] }

/-- The visa stored for `"bob"`, signed at time 100. -/
def visa100 : Doc := ⟨"bob", "visa", some 100, "v100"⟩

/-- An incoming older visa for `"bob"`, signed at time 50. -/
def visa50 : Doc := ⟨"bob", "visa", some 50, "v50"⟩

/-- An incoming newer visa for `"bob"`, signed at time 200. -/
def visa200 : Doc := ⟨"bob", "visa", some 200, "v200"⟩

/-- A contacts-list state where the durable sink holds `["c1"]` for
`"u"`, the volatile sink is empty, and both sinks are up. -/
def usrW : UsrState :=
  { pool := [], redis := [], dos := [("u", ["c1"])],
    redisOk := true, dosOk := true, trace := [] }

/-- A document state where the durable sink holds `[visa100]` for
`"bob"`, the `'all_documents'` scan cache is live (written at time 0),
and both sinks are up. -/
def docSt0 : DocState :=
  { pool := [],
    poolAll := some (CacheEntry.mk' [visa100] SCAN_CACHE_EXPIRES SCAN_CACHE_REFRESH 0),
    redis := [],
    dos := [("bob", [visa100])],
    redisOk := true,
    dosOk := true,
    trace := [] }

/-- Registry state after `saveRecord("alice", "idA")` from the empty
registry at time 0. -/
def ansA1 : AnsState := (AddressNameTable.save_record ansSt0 0 "alice" "idA").1

/-- The subsequent `getNames("idA")` call: its result and the state it
leaves behind (with the reverse set cached under `"idA"`). -/
def ansA2 : List String × AnsState := AddressNameTable.get_names ansA1 0 "idA"

/-- Registry state after the reassignment `saveRecord("alice", "idB")`. -/
def ansA3 : AnsState := (AddressNameTable.save_record ansA2.2 0 "alice" "idB").1

/-- The `getRecord("alice")` call against `ansSt1`: its result
(`"idA"`) and the state it leaves behind (with the binding cached under
the name `"alice"`). -/
def ansB1 : Option EntityID × AnsState := AddressNameTable.get_record ansSt1 0 "alice"

/-- Registry state after the subsequent `saveRecord("alice", "idB")`. -/
def ansB2 : AnsState := (AddressNameTable.save_record ansB1.2 0 "alice" "idB").1

/-!  ## Helper lemmas -/

theorem alistLookup_insert [DecidableEq K] (l : List (K × V)) (k : K) (v : V) :
    alistLookup (alistInsert l k v) k = some v := by
  induction l with
  | nil => simp [alistInsert, alistLookup]
  | cons p rest ih =>
    rcases p with ⟨k', v'⟩
    by_cases h : k' = k
    · simp [alistInsert, h, alistLookup]
    · simp [alistInsert, h, alistLookup, ih]

theorem alistLookup_insert_ne [DecidableEq K] (l : List (K × V)) (k k' : K) (v : V)
    (h : k' ≠ k) : alistLookup (alistInsert l k v) k' = alistLookup l k' := by
  induction l with
  | nil => simp [alistInsert, alistLookup, Ne.symm h]
  | cons p rest ih =>
    rcases p with ⟨a, b⟩
    by_cases ha : a = k
    · subst ha
      simp [alistInsert, alistLookup, Ne.symm h]
    · simp only [alistInsert, if_neg ha, alistLookup]
      by_cases hb : a = k'
      · simp [hb]
      · simp [hb, ih]

theorem alistLookup_erase_self [DecidableEq K] (l : List (K × V)) (k : K) :
    alistLookup (alistErase l k) k = none := by
  induction l with
  | nil => simp [alistErase, alistLookup]
  | cons p rest ih =>
    rcases p with ⟨a, b⟩
    by_cases ha : a = k
    · simp [alistErase, ha, ih]
    · simp [alistErase, ha, alistLookup, ih]

theorem alistLookup_erase_ne [DecidableEq K] (l : List (K × V)) (k k' : K)
    (h : k' ≠ k) : alistLookup (alistErase l k) k' = alistLookup l k' := by
  induction l with
  | nil => simp [alistErase, alistLookup]
  | cons p rest ih =>
    rcases p with ⟨a, b⟩
    by_cases ha : a = k
    · subst ha
      simp [alistErase, alistLookup, Ne.symm h, ih]
    · simp only [alistErase, if_neg ha, alistLookup]
      by_cases hb : a = k'
      · simp [hb]
      · simp [hb, ih]

theorem mem_alistInsert [DecidableEq K] (l : List (K × V)) (k : K) (v : V)
    (p : K × V) (hp : p ∈ alistInsert l k v) : p = (k, v) ∨ p ∈ l := by
  induction l with
  | nil =>
    simp only [alistInsert] at hp
    rcases List.mem_cons.mp hp with h | h
    · exact Or.inl h
    · simp at h
  | cons q rest ih =>
    rcases q with ⟨a, b⟩
    by_cases ha : a = k
    · simp only [alistInsert, if_pos ha] at hp
      rcases List.mem_cons.mp hp with h | h
      · exact Or.inl h
      · exact Or.inr (List.mem_cons_of_mem _ h)
    · simp only [alistInsert, if_neg ha] at hp
      rcases List.mem_cons.mp hp with h | h
      · exact Or.inr (h ▸ List.mem_cons_self _ _)
      · rcases ih h with h' | h'
        · exact Or.inl h'
        · exact Or.inr (List.mem_cons_of_mem _ h')

theorem mem_alistErase [DecidableEq K] (l : List (K × V)) (k : K)
    (p : K × V) (hp : p ∈ alistErase l k) : p ∈ l := by
  induction l with
  | nil => simp [alistErase] at hp
  | cons q rest ih =>
    rcases q with ⟨a, b⟩
    by_cases ha : a = k
    · simp only [alistErase, if_pos ha] at hp
      exact List.mem_cons_of_mem _ (ih hp)
    · simp only [alistErase, if_neg ha] at hp
      rcases List.mem_cons.mp hp with h | h
      · exact h ▸ List.mem_cons_self _ _
      · exact List.mem_cons_of_mem _ (ih h)

theorem setAdd_ne_nil [DecidableEq A] (s : List A) (x : A) : setAdd s x ≠ [] := by
  unfold setAdd
  by_cases h : x ∈ s
  · simp only [if_pos h]
    rintro rfl
    simp at h
  · simp [if_neg h]

/-!  ## C1: command-record stale rejection -/

/-- `_is_contacts_expired` can never make the caller reject: the paths
that return at all return `False`, and for every positive-time command
the tuple unpack raises before any comparison. -/
theorem is_contacts_expired_never_rejects (st : CmdState) (now : Int) (user : EntityID)
    (content : Cmd) :
    rejects (UserTable.is_contacts_expired st now user content).1 = false := by
  unfold UserTable.is_contacts_expired
  rcases content with ⟨t, body⟩
  rcases t with _ | t
  · rfl
  · by_cases h : t ≤ 0
    · simp [h, rejects, truthy]
    · simp only [h, if_false, if_neg]
      rcases hg : UserTable.get_contacts_command st now user with ⟨old, st2⟩
      simp [hg, rejects]

/-- For every command carrying a positive time, `_is_contacts_expired`
raises (the `old, _ =` unpack of the single-valued result), and for a
non-positive or missing time it returns `False`. -/
theorem is_contacts_expired_raises_on_positive_time (st : CmdState) (now : Int)
    (user : EntityID) (t : Int) (body : String) :
    (UserTable.is_contacts_expired st now user ⟨some t, body⟩).1
      = (if t ≤ 0 then PyResult.ok (some false) else PyResult.raised) := by
  unfold UserTable.is_contacts_expired
  by_cases h : t ≤ 0 <;> simp [h]

theorem is_blocked_expired_falsy (st : CmdState) (now : Int) (user : EntityID)
    (content : Cmd) :
    truthy (UserTable.is_blocked_expired st now user content).1 = false := by
  unfold UserTable.is_blocked_expired
  rcases content with ⟨t, body⟩
  rcases t with _ | t
  · rfl
  · by_cases h : t ≤ 0
    · simp [h, truthy]
    · simp only [h, if_false, if_neg]
      rcases hg : UserTable.get_block_command st now user with ⟨old, st2⟩
      rcases old with _ | o
      · simp [hg, truthy]
      · by_cases hb : is_before o.time (some t) <;> simp [hg, hb, truthy]

/-- C1: the claim says that with a time=100 contacts command stored, an
incoming command with positive time=50 is rejected (`False`, no state
change).  The code never rejects.  For the contacts variant, every
positive-time command makes the `old, _ =` tuple unpack at
t_user.py:225 raise, so on the failing input `save_contacts_command`
propagates an exception instead of returning `False` (the stored
time=100 record stays in place only because the call never finishes).
For the block variant, `_is_blocked_expired` returns a falsy value on
every path (the "command expired" branch returns `False` instead of
`True`), so `save_block_command` accepts the stale time=50 command,
returns success and overwrites the stored time=100 record. -/
theorem c1_stale_command_never_rejected :
    (∀ (st : CmdState) (now : Int) (user : EntityID) (content : Cmd),
      rejects (UserTable.is_contacts_expired st now user content).1 = false)
    ∧ (∀ (st : CmdState) (now : Int) (user : EntityID) (t : Int) (body : String),
      (UserTable.is_contacts_expired st now user ⟨some t, body⟩).1
        = (if t ≤ 0 then PyResult.ok (some false) else PyResult.raised))
    ∧ (∀ (st : CmdState) (now : Int) (user : EntityID) (content : Cmd),
      truthy (UserTable.is_blocked_expired st now user content).1 = false)
    ∧ (UserTable.save_contacts_command cmdSt100 1 "u" cmd50).2 = PyResult.raised
    ∧ (UserTable.get_contacts_command
        (UserTable.save_contacts_command cmdSt100 1 "u" cmd50).1 1 "u").1 = some cmd100
    ∧ (UserTable.save_block_command cmdSt100 1 "u" cmd50).2 = true
    ∧ (UserTable.get_block_command
        (UserTable.save_block_command cmdSt100 1 "u" cmd50).1 1 "u").1 = some cmd50 := by
  refine ⟨is_contacts_expired_never_rejects, is_contacts_expired_raises_on_positive_time,
    is_blocked_expired_falsy, ?_, ?_, ?_, ?_⟩ <;> decide

/-!  ## C2: two-sink write cascade -/

/-- C2: in every Task write cascade (contact lists, command records,
document lists, device lists) both sink writes are attempted (the trace
grows by a redis save followed by a dos save) and the reported result
is exactly the logical OR of the volatile-sink and durable-sink
outcomes. -/
theorem c2_write_cascade_or_success :
    ∀ (su : UsrState) (sc : CmdState) (sd : DocState) (sv : DevState)
      (user : EntityID) (contacts : List EntityID) (cmd : Cmd) (docs : List Doc)
      (devices : List DeviceInfo),
      ((UsrTask.write_data su user contacts).1 = (su.redisOk || su.dosOk)
        ∧ (UsrTask.write_data su user contacts).2.trace
            = su.trace ++ [SinkEvent.redisSave, SinkEvent.dosSave])
      ∧ ((ConTask.write_data sc user cmd).1 = (sc.redisOk || sc.dosOk)
        ∧ (ConTask.write_data sc user cmd).2.trace
            = sc.trace ++ [SinkEvent.redisSave, SinkEvent.dosSave])
      ∧ ((BloTask.write_data sc user cmd).1 = (sc.redisOk || sc.dosOk)
        ∧ (BloTask.write_data sc user cmd).2.trace
            = sc.trace ++ [SinkEvent.redisSave, SinkEvent.dosSave])
      ∧ ((DocTask.write_data sd user docs).1 = (sd.redisOk || sd.dosOk)
        ∧ (DocTask.write_data sd user docs).2.trace
            = sd.trace ++ [SinkEvent.redisSave, SinkEvent.dosSave])
      ∧ ((DevTask.write_data sv user devices).1 = (sv.redisOk || sv.dosOk)
        ∧ (DevTask.write_data sv user devices).2.trace
            = sv.trace ++ [SinkEvent.redisSave, SinkEvent.dosSave]) := by
  intro su sc sd sv user contacts cmd docs devices
  refine ⟨⟨?_, ?_⟩, ⟨?_, ?_⟩, ⟨?_, ?_⟩, ⟨?_, ?_⟩, ⟨?_, ?_⟩⟩ <;>
    · first
      | (by_cases h1 : su.redisOk <;> by_cases h2 : su.dosOk <;>
          simp [UsrTask.write_data, h1, h2])
      | (by_cases h1 : sc.redisOk <;> by_cases h2 : sc.dosOk <;>
          simp [ConTask.write_data, BloTask.write_data, h1, h2])
      | (by_cases h1 : sd.redisOk <;> by_cases h2 : sd.dosOk <;>
          simp [DocTask.write_data, h1, h2])
      | (by_cases h1 : sv.redisOk <;> by_cases h2 : sv.dosOk <;>
          simp [DevTask.write_data, h1, h2])

/-!  ## C3: cascading read with back-fill -/

/-- C3: on a key absent from the volatile sink and present in the
durable sink, `_read_data` asks the volatile sink first, then the
durable sink, returns the durable value, and back-fills it into the
volatile sink before returning; when both sinks miss it returns absent
and changes no store.  Shown for the contacts task (`UsrTask`) and the
document task (`DocTask`). -/
theorem c3_cascading_read_backfill :
    ∀ (su : UsrState) (sd : DocState) (user : EntityID) (v : List EntityID)
      (docs : List Doc),
      (alistLookup su.redis user = none → su.redisOk = true →
        alistLookup su.dos user = some v →
          (UsrTask.read_data su user).1 = some v
          ∧ alistLookup (UsrTask.read_data su user).2.redis user = some v
          ∧ (UsrTask.read_data su user).2.trace
              = su.trace ++ [SinkEvent.redisGet, SinkEvent.dosGet, SinkEvent.redisSave])
      ∧ (alistLookup su.redis user = none → alistLookup su.dos user = none →
          (UsrTask.read_data su user).1 = none
          ∧ (UsrTask.read_data su user).2.redis = su.redis
          ∧ (UsrTask.read_data su user).2.dos = su.dos)
      ∧ (alistLookup sd.redis user = none → sd.redisOk = true →
          alistLookup sd.dos user = some docs → docs.length > 0 →
          (DocTask.read_data sd user).1 = some docs
          ∧ alistLookup (DocTask.read_data sd user).2.redis user = some docs
          ∧ (DocTask.read_data sd user).2.trace
              = sd.trace ++ [SinkEvent.redisGet, SinkEvent.dosGet, SinkEvent.redisSave])
      ∧ (alistLookup sd.redis user = none → alistLookup sd.dos user = none →
          (DocTask.read_data sd user).1 = none
          ∧ (DocTask.read_data sd user).2.redis = sd.redis
          ∧ (DocTask.read_data sd user).2.dos = sd.dos) := by
  intro su sd user v docs
  refine ⟨?_, ?_, ?_, ?_⟩
  · intro h1 h2 h3
    simp [UsrTask.read_data, h1, h2, h3, alistLookup_insert]
  · intro h1 h2
    simp [UsrTask.read_data, h1, h2]
  · intro h1 h2 h3 h4
    simp [DocTask.read_data, h1, h2, h3, h4, alistLookup_insert]
  · intro h1 h2
    simp [DocTask.read_data, h1, h2]
/-- Witness for C3 at concrete states: `"u"` present only in the durable
contacts store, `"bob"` present only in the durable document store,
`"w"` absent everywhere. -/
theorem c3_cascading_read_backfill_witness :
    ((UsrTask.read_data usrW "u").1 = some ["c1"]
      ∧ alistLookup (UsrTask.read_data usrW "u").2.redis "u" = some ["c1"]
      ∧ (UsrTask.read_data usrW "u").2.trace
          = usrW.trace ++ [SinkEvent.redisGet, SinkEvent.dosGet, SinkEvent.redisSave])
    ∧ ((UsrTask.read_data usrW "w").1 = none
      ∧ (UsrTask.read_data usrW "w").2.redis = usrW.redis
      ∧ (UsrTask.read_data usrW "w").2.dos = usrW.dos)
    ∧ ((DocTask.read_data docSt0 "bob").1 = some [visa100]
      ∧ alistLookup (DocTask.read_data docSt0 "bob").2.redis "bob" = some [visa100]
      ∧ (DocTask.read_data docSt0 "bob").2.trace
          = docSt0.trace ++ [SinkEvent.redisGet, SinkEvent.dosGet, SinkEvent.redisSave])
    ∧ ((DocTask.read_data docSt0 "w").1 = none
      ∧ (DocTask.read_data docSt0 "w").2.redis = docSt0.redis
      ∧ (DocTask.read_data docSt0 "w").2.dos = docSt0.dos) :=
  ⟨(c3_cascading_read_backfill usrW docSt0 "u" ["c1"] [visa100]).1
      (by decide) (by decide) (by decide),
    (c3_cascading_read_backfill usrW docSt0 "w" ["c1"] [visa100]).2.1
      (by decide) (by decide),
    (c3_cascading_read_backfill usrW docSt0 "bob" ["c1"] [visa100]).2.2.1
      (by decide) (by decide) (by decide) (by decide),
    (c3_cascading_read_backfill usrW docSt0 "w" ["c1"] [visa100]).2.2.2
      (by decide) (by decide)⟩

/-!  ## C9: local socket-map invariant -/

theorem add_preserves_sockInvariant (st : ActiveState) (i : EntityID) (a : Addr)
    (h : sockInvariant st.socketAddress) :
    sockInvariant (ActiveTable.add_socket_address st i a).1.socketAddress := by
  intro p hp
  simp only [ActiveTable.add_socket_address] at hp
  rcases mem_alistInsert _ _ _ _ hp with h' | h'
  · rw [h']
    exact setAdd_ne_nil _ _
  · exact h p h'

theorem remove_preserves_sockInvariant (st : ActiveState) (i : EntityID) (a : Addr)
    (h : sockInvariant st.socketAddress) :
    sockInvariant (ActiveTable.remove_socket_address st i a).1.socketAddress := by
  intro p hp
  unfold ActiveTable.remove_socket_address at hp
  rcases hl : alistLookup st.socketAddress i with _ | sockets
  · rw [hl] at hp
    exact h p hp
  · rw [hl] at hp
    by_cases hz : (setDiscard sockets a).length = 0
    · simp only [hz, if_pos] at hp
      exact h p (mem_alistErase _ _ _ hp)
    · simp only [hz, if_neg, if_false] at hp
      rcases mem_alistInsert _ _ _ _ hp with h' | h'
      · rw [h']
        intro hnil
        have h2 : setDiscard sockets a = [] := hnil
        exact hz (by rw [h2]; rfl)
      · exact h p h'

theorem runSockOps_preserves_sockInvariant (ops : List SockOp) (st : ActiveState)
    (h : sockInvariant st.socketAddress) :
    sockInvariant (runSockOps st ops).socketAddress := by
  induction ops generalizing st with
  | nil => exact h
  | cons op rest ih =>
    cases op with
    | add i a => exact ih _ (add_preserves_sockInvariant st i a h)
    | remove i a => exact ih _ (remove_preserves_sockInvariant st i a h)

/-- C9: after any finite sequence of add/remove socket operations from a
fresh table, every identifier present in the local map has a non-empty
socket set; two adds of distinct addresses for a previously unknown
identifier yield the two-element set; removing an identifier's last
remaining address removes its entry from the map entirely. -/
theorem c9_socket_map_invariant :
    (∀ (ops : List SockOp) (r : Option (List EntityID))
        (s : List (EntityID × List Addr)),
      sockInvariant (runSockOps (initialActiveState r s) ops).socketAddress)
    ∧ (∀ (st : ActiveState) (i : EntityID) (a1 a2 : Addr), a1 ≠ a2 →
        alistLookup st.socketAddress i = none →
        (ActiveTable.add_socket_address
          (ActiveTable.add_socket_address st i a1).1 i a2).2 = [a1, a2])
    ∧ (∀ (st : ActiveState) (i : EntityID) (a : Addr),
        alistLookup st.socketAddress i = some [a] →
        (ActiveTable.remove_socket_address st i a).2 = none
        ∧ alistLookup (ActiveTable.remove_socket_address st i a).1.socketAddress i
            = none) := by
  refine ⟨?_, ?_, ?_⟩
  · intro ops r s
    apply runSockOps_preserves_sockInvariant
    intro p hp
    simp [initialActiveState] at hp
  · intro st i a1 a2 hne hl
    simp [ActiveTable.add_socket_address, hl, alistLookup_insert, setAdd, Ne.symm hne]
  · intro st i a hl
    constructor
    · simp [ActiveTable.remove_socket_address, hl, setDiscard]
    · simp [ActiveTable.remove_socket_address, hl, setDiscard, alistLookup_erase_self]

/-!  ## C7, C8: presence reads and the startup clear -/

/-- Witness for C9 at concrete inputs. -/
theorem c9_socket_map_invariant_witness :
    sockInvariant ((runSockOps (initialActiveState none [])
        [SockOp.add "bob" ("h", 1), SockOp.remove "bob" ("h", 1)]).socketAddress)
    ∧ (ActiveTable.add_socket_address
        (ActiveTable.add_socket_address (initialActiveState none []) "bob" ("h", 1)).1
        "bob" ("h", 2)).2 = [("h", 1), ("h", 2)]
    ∧ (ActiveTable.remove_socket_address actStBob "bob" ("h", 1)).2 = none
    ∧ alistLookup (ActiveTable.remove_socket_address actStBob "bob" ("h", 1)).1.socketAddress
        "bob" = none :=
  ⟨c9_socket_map_invariant.1 _ none [],
    c9_socket_map_invariant.2.1 (initialActiveState none []) "bob" ("h", 1) ("h", 2)
      (by decide) (by decide),
    (c9_socket_map_invariant.2.2 actStBob "bob" ("h", 1) (by decide)).1,
    (c9_socket_map_invariant.2.2 actStBob "bob" ("h", 1) (by decide)).2⟩

/-- C7 fails on the code: `get_active_users` goes through the Table's
in-process cache pool; with a fresh cached entry `["A"]` it returns
`["A"]` even though the volatile sink currently reports `["B"]`, so the
result does not reflect the volatile sink's presence state at call
time. -/
theorem c7_counterexample :
    (ActiveTable.get_active_users actStA 1).1 = ["A"]
    ∧ actStA.redisActive = some ["B"]
    ∧ (ActiveTable.get_active_users actStA 1).1 ≠ ["B"] := by
  decide

/-- C7 amended: `get_active_users` never reads the local socket map (its
result is invariant under that field), and the only sink its cascading
read can consult is the volatile one: on a cache-pool miss the result
is exactly the volatile sink's set, with an absent or empty sink result
returned as the empty set; otherwise the 60-second cache-pool entry is
served. -/
theorem c7_active_users_from_volatile_only :
    (∀ (st : ActiveState) (now : Int) (m : List (EntityID × List Addr)),
      (ActiveTable.get_active_users { st with socketAddress := m } now).1
        = (ActiveTable.get_active_users st now).1)
    ∧ (∀ (st : ActiveState) (now : Int),
      slotFetch st.poolActive now = (none, false) →
        (ActiveTable.get_active_users st now).1 = (ActTask.read_data st).getD []) := by
  constructor
  · intro st now m
    simp only [ActiveTable.get_active_users, ActTask.load, ActTask.read_data]
    rcases h : slotFetch st.poolActive now with ⟨v, flag⟩
    rcases v with _ | v <;> rcases flag with _ | _ <;> simp [h] <;>
      rcases hr : st.redisActive with _ | us <;> simp [hr] <;>
        by_cases hz : us = [] <;> simp [hz]
  · intro st now h
    simp only [ActiveTable.get_active_users, ActTask.load]
    rw [h]
    rcases hr : ActTask.read_data st with _ | us <;> simp [hr]

/-- Witness for the C7 amended theorem at concrete inputs. -/
theorem c7_active_users_from_volatile_only_witness :
    (ActiveTable.get_active_users { actStA with socketAddress := [("x", [("h", 9)])] } 1).1
      = (ActiveTable.get_active_users actStA 1).1
    ∧ (ActiveTable.get_active_users (initialActiveState (some ["B"]) []) 0).1
      = (ActTask.read_data (initialActiveState (some ["B"]) [])).getD [] :=
  ⟨c7_active_users_from_volatile_only.1 actStA 1 [("x", [("h", 9)])],
    c7_active_users_from_volatile_only.2 (initialActiveState (some ["B"]) []) 0 (by decide)⟩

/-- C8 fails on the code: `clear_socket_addresses` never touches the
in-process identifier → socket-set map; starting from a state whose
local map holds an entry for `"bob"`, the map is unchanged (and
non-empty) after the call. -/
theorem c8_counterexample :
    (ActiveTable.clear_socket_addresses actStBob).socketAddress = [("bob", [("h", 1)])]
    ∧ (ActiveTable.clear_socket_addresses actStBob).socketAddress ≠ [] := by
  decide

/-- C8 amended: `clear_socket_addresses` erases the cached
`'active_users'` entry and clears the volatile sink's presence records,
leaving the in-process socket map untouched (it is empty at startup
anyway), and `create_database` performs exactly one such clear while
building the database handed to the station. -/
theorem c8_clear_socket_addresses_effect :
    ∀ st : ActiveState,
      (ActiveTable.clear_socket_addresses st).poolActive = none
      ∧ (ActiveTable.clear_socket_addresses st).redisActive = none
      ∧ (ActiveTable.clear_socket_addresses st).redisSockets = []
      ∧ (ActiveTable.clear_socket_addresses st).socketAddress = st.socketAddress
      ∧ create_database st = ActiveTable.clear_socket_addresses st := by
  intro st
  exact ⟨rfl, rfl, rfl, rfl, rfl⟩

/-!  ## C4, C5, C10: address-name registry -/

theorem allTask_load_frame (st : AnsState) (now : Int) :
    (AllTask.load st now).2.poolNames = st.poolNames
    ∧ (AllTask.load st now).2.poolIds = st.poolIds
    ∧ (AllTask.load st now).2.redisRecords = st.redisRecords
    ∧ (AllTask.load st now).2.redisNames = st.redisNames
    ∧ (AllTask.load st now).2.dosRecords = st.dosRecords
    ∧ (AllTask.load st now).2.redisOk = st.redisOk
    ∧ (AllTask.load st now).2.dosOk = st.dosOk := by
  unfold AllTask.load AllTask.read_data
  rcases h : slotFetch st.poolAll now with ⟨v, flag⟩
  rcases v with _ | v <;> rcases flag with _ | _ <;> simp [h] <;>
    rcases hd : st.dosRecords with _ | blob <;> simp [hd]
theorem save_record_effects (st : AnsState) (now : Int) (name : String)
    (identifier : EntityID) :
    (AddressNameTable.save_record st now name identifier).2 = st.dosOk
    ∧ (AddressNameTable.save_record st now name identifier).1.poolNames = st.poolNames
    ∧ (AddressNameTable.save_record st now name identifier).1.poolIds
        = alistErase st.poolIds identifier
    ∧ (AddressNameTable.save_record st now name identifier).1.redisNames = st.redisNames
    ∧ (AddressNameTable.save_record st now name identifier).1.redisOk = st.redisOk
    ∧ (AddressNameTable.save_record st now name identifier).1.dosOk = st.dosOk
    ∧ (st.redisOk = true →
        (AddressNameTable.save_record st now name identifier).1.redisRecords
          = alistInsert st.redisRecords name identifier)
    ∧ (st.redisOk = false →
        (AddressNameTable.save_record st now name identifier).1.redisRecords
          = st.redisRecords)
    ∧ (st.dosOk = false →
        (AddressNameTable.save_record st now name identifier).1.dosRecords = st.dosRecords)
    ∧ ((AddressNameTable.save_record st now name identifier).1.poolAll.map
        (fun e => alistLookup e.value name) = some (some identifier))
    ∧ ((AddressNameTable.save_record st now name identifier).1.poolAll.map
        (fun e => (e.expireAt, e.refreshAt))
        = some (now + MEM_CACHE_EXPIRES, now + MEM_CACHE_EXPIRES - MEM_CACHE_REFRESH))
    ∧ (st.dosOk = true →
        (AddressNameTable.save_record st now name identifier).1.dosRecords.map
          (fun blob => alistLookup blob name) = some (some identifier)) := by
  unfold AddressNameTable.save_record AddressNameTable.load_records
  rcases hl : AllTask.load { st with poolIds := alistErase st.poolIds identifier } now
    with ⟨recs, stb⟩
  have hf := allTask_load_frame { st with poolIds := alistErase st.poolIds identifier } now
  rw [hl] at hf
  obtain ⟨hfN, hfI, hfR, hfRN, hfD, hfOk1, hfOk2⟩ := hf
  dsimp only at hfN hfI hfR hfRN hfD hfOk1 hfOk2
  simp only [hl]
  by_cases hr : st.redisOk <;> by_cases hd : st.dosOk <;>
    simp [hr, hd, hfN, hfI, hfR, hfRN, hfD, hfOk1, hfOk2, alistLookup_insert,
      CacheEntry.mk']
/-- C4 fails on the code: `save_record` erases the reverse-index cache
entry of the identifier being *assigned*, not of the previous owner.
After `saveRecord("alice","idA")`, `getNames("idA")` caches
`{"alice"}`; after the reassignment `saveRecord("alice","idB")`,
`getNames("idB")` does contain `"alice"`, but `getNames("idA")` still
contains `"alice"` as well, where the claim requires it to no longer
do so. -/
theorem c4_counterexample :
    ansA2.1 = ["alice"]
    ∧ "alice" ∈ (AddressNameTable.get_names ansA3 0 "idB").1
    ∧ "alice" ∈ (AddressNameTable.get_names ansA3 0 "idA").1 := by
  refine ⟨by decide, by decide, by decide⟩

/-- C4 amended: `save_record` invalidates the reverse-index cache entry
of the identifier being assigned (the new owner) and leaves every other
identifier's reverse entry untouched; hence after the reassignment
`getNames(idB)` contains the name, while the previous owner's cached
reverse set is not invalidated and `getNames(idA)` keeps reporting the
name until that entry expires. -/
theorem c4_reverse_cache_invalidated_for_new_owner :
    (∀ (st : AnsState) (now : Int) (name : String) (identifier : EntityID),
      alistLookup (AddressNameTable.save_record st now name identifier).1.poolIds identifier
        = none)
    ∧ (∀ (st : AnsState) (now : Int) (name : String) (identifier j : EntityID),
      j ≠ identifier →
      alistLookup (AddressNameTable.save_record st now name identifier).1.poolIds j
        = alistLookup st.poolIds j)
    ∧ ansA2.1 = ["alice"]
    ∧ "alice" ∈ (AddressNameTable.get_names ansA3 0 "idB").1
    ∧ "alice" ∈ (AddressNameTable.get_names ansA3 0 "idA").1 := by
  refine ⟨?_, ?_, by decide, by decide, by decide⟩
  · intro st now name identifier
    obtain ⟨-, -, hI, -⟩ := save_record_effects st now name identifier
    rw [hI, alistLookup_erase_self]
  · intro st now name identifier j hj
    obtain ⟨-, -, hI, -⟩ := save_record_effects st now name identifier
    rw [hI, alistLookup_erase_ne _ _ _ hj]

/-- Witness for the C4 amended theorem at concrete inputs. -/
theorem c4_reverse_cache_invalidated_for_new_owner_witness :
    alistLookup (AddressNameTable.save_record ansSt0 0 "alice" "idB").1.poolIds "idB" = none
    ∧ alistLookup (AddressNameTable.save_record ansSt0 0 "alice" "idB").1.poolIds "idA"
        = alistLookup ansSt0.poolIds "idA" :=
  ⟨c4_reverse_cache_invalidated_for_new_owner.1 ansSt0 0 "alice" "idB",
    c4_reverse_cache_invalidated_for_new_owner.2.1 ansSt0 0 "alice" "idB" "idA" (by decide)⟩

/-- C5 fails on the code: with the binding for `"alice"` already cached
per-name (by an earlier `get_record`), `save_record("alice","idB")`
does not invalidate that per-name entry, and the next
`get_record("alice")` returns the previously cached `"idA"`, not the
just-written `"idB"`. -/
theorem c5_counterexample :
    ansB1.1 = some "idA"
    ∧ (AddressNameTable.get_record ansB2 0 "alice").1 = some "idA"
    ∧ (AddressNameTable.get_record ansB2 0 "alice").1 ≠ some "idB" := by
  refine ⟨by decide, by decide, by decide⟩

/-- C5 amended: a `save_record(name, identifier)` is observed by the
next local `get_record(name)` provided no per-name cache-pool entry for
that name exists (and the volatile sink is accepting writes); a
previously cached per-name binding is not invalidated by `save_record`
and keeps being served until it expires. -/
theorem c5_write_visible_when_name_uncached :
    ∀ (st : AnsState) (now : Int) (name : String) (identifier : EntityID),
      alistLookup st.poolNames name = none → st.redisOk = true →
      (AddressNameTable.get_record
        (AddressNameTable.save_record st now name identifier).1 now name).1
        = some identifier := by
  intro st now name identifier hp hr
  obtain ⟨-, hN, -, -, -, -, hRR, -⟩ := save_record_effects st now name identifier
  unfold AddressNameTable.get_record
  rcases hL : IdTask.load (AddressNameTable.save_record st now name identifier).1 now name
    with ⟨did, st2⟩
  have hfst : (IdTask.load (AddressNameTable.save_record st now name identifier).1 now name).1
      = some identifier := by
    unfold IdTask.load IdTask.read_data
    simp [poolFetch, hN, hp, hRR hr, alistLookup_insert]
  rw [hL] at hfst
  simp only at hfst
  subst hfst
  simp [hL]

/-- Witness for the C5 amended theorem at concrete inputs. -/
theorem c5_write_visible_when_name_uncached_witness :
    (AddressNameTable.get_record
      (AddressNameTable.save_record ansSt1 0 "alice" "idB").1 0 "alice").1 = some "idB" :=
  c5_write_visible_when_name_uncached ansSt1 0 "alice" "idB" (by decide) (by decide)

/-- C10: `save_record`'s boolean result is exactly the durable sink's
save-all-records outcome, the volatile mirror's outcome being ignored;
the all-records cache entry, the erased reverse-index entry and (when
the volatile sink is up) the volatile single-name record are all
already updated even when the durable save fails, and a failed durable
save leaves the durable blob unchanged (no rollback). -/
theorem c10_save_record_result_is_durable_outcome :
    ∀ (st : AnsState) (now : Int) (name : String) (identifier : EntityID),
      (AddressNameTable.save_record st now name identifier).2 = st.dosOk
      ∧ ((AddressNameTable.save_record st now name identifier).1.poolAll.map
          (fun e => alistLookup e.value name) = some (some identifier))
      ∧ alistLookup (AddressNameTable.save_record st now name identifier).1.poolIds
          identifier = none
      ∧ (st.redisOk = true →
          alistLookup (AddressNameTable.save_record st now name identifier).1.redisRecords
            name = some identifier)
      ∧ (st.dosOk = false →
          (AddressNameTable.save_record st now name identifier).1.dosRecords
            = st.dosRecords) := by
  intro st now name identifier
  obtain ⟨h1, h2, h3, h4, h5, h6, h7, h8, h9, h10, h11, h12⟩ :=
    save_record_effects st now name identifier
  refine ⟨h1, h10, ?_, ?_, h9⟩
  · rw [h3, alistLookup_erase_self]
  · intro hr
    rw [h7 hr, alistLookup_insert]

/-- Witness for C10 at concrete inputs (durable sink down in the first
and third conjuncts). -/
theorem c10_save_record_result_is_durable_outcome_witness :
    (AddressNameTable.save_record { ansSt0 with dosOk := false } 0 "alice" "idA").2
      = { ansSt0 with dosOk := false }.dosOk
    ∧ alistLookup (AddressNameTable.save_record ansSt0 0 "alice" "idA").1.redisRecords
        "alice" = some "idA"
    ∧ (AddressNameTable.save_record { ansSt0 with dosOk := false } 0 "alice" "idA").1.dosRecords
      = { ansSt0 with dosOk := false }.dosRecords :=
  ⟨(c10_save_record_result_is_durable_outcome { ansSt0 with dosOk := false } 0 "alice" "idA").1,
    (c10_save_record_result_is_durable_outcome ansSt0 0 "alice" "idA").2.2.2.1 (by decide),
    (c10_save_record_result_is_durable_outcome
      { ansSt0 with dosOk := false } 0 "alice" "idA").2.2.2.2 (by decide)⟩

/-!  ## C6: document supersession -/

theorem poolFetch_update_self [DecidableEq K] (pool : List (K × CacheEntry V)) (key : K)
    (value : V) (now : Int) :
    poolFetch (poolUpdate pool key value MEM_CACHE_EXPIRES MEM_CACHE_REFRESH now) key now
      = (some value, false) := by
  unfold poolFetch poolUpdate CacheEntry.mk'
  rw [alistLookup_insert]
  simp only []
  rw [if_pos]
  unfold MEM_CACHE_EXPIRES MEM_CACHE_REFRESH
  omega

theorem docTask_read_data_frame (s : DocState) (identifier : EntityID) :
    (DocTask.read_data s identifier).2.poolAll = s.poolAll
    ∧ (DocTask.read_data s identifier).2.pool = s.pool
    ∧ (DocTask.read_data s identifier).2.dos = s.dos
    ∧ (DocTask.read_data s identifier).2.redisOk = s.redisOk
    ∧ (DocTask.read_data s identifier).2.dosOk = s.dosOk := by
  unfold DocTask.read_data
  rcases h1 : alistLookup s.redis identifier with _ | docs <;>
    rcases h2 : alistLookup s.dos identifier with _ | docs2 <;>
      by_cases hok : s.redisOk <;>
        simp [h1, h2, hok] <;>
          split_ifs <;> simp

theorem docTask_load_frame (st : DocState) (now : Int) (identifier : EntityID) :
    (DocTask.load st now identifier).2.poolAll = st.poolAll
    ∧ (DocTask.load st now identifier).2.dos = st.dos
    ∧ (DocTask.load st now identifier).2.redisOk = st.redisOk
    ∧ (DocTask.load st now identifier).2.dosOk = st.dosOk := by
  unfold DocTask.load
  rcases hp : poolFetch st.pool identifier now with ⟨v, flag⟩
  have hf := docTask_read_data_frame st identifier
  rcases hr : DocTask.read_data st identifier with ⟨w, st2⟩
  rw [hr] at hf
  dsimp only at hf
  obtain ⟨hfA, hfP, hfD, hfO1, hfO2⟩ := hf
  rcases v with _ | v <;> rcases flag with _ | _ <;>
    simp [hp, hr] <;> rcases w with _ | w <;>
      simp [poolUpdate, hfA, hfP, hfD, hfO1, hfO2]
theorem docTask_save_effects (st : DocState) (now : Int) (identifier : EntityID)
    (value : List Doc) :
    (DocTask.save st now identifier value).2 = (st.redisOk || st.dosOk)
    ∧ (DocTask.save st now identifier value).1.pool
        = poolUpdate st.pool identifier value MEM_CACHE_EXPIRES MEM_CACHE_REFRESH now
    ∧ (DocTask.save st now identifier value).1.poolAll = st.poolAll
    ∧ (st.redisOk = true →
        alistLookup (DocTask.save st now identifier value).1.redis identifier = some value)
    ∧ (st.dosOk = true →
        alistLookup (DocTask.save st now identifier value).1.dos identifier = some value) := by
  unfold DocTask.save DocTask.write_data
  by_cases h1 : st.redisOk <;> by_cases h2 : st.dosOk <;>
    simp [h1, h2, alistLookup_insert]

theorem append_scan_cache_effects (st : DocState) (now : Int) (document : Doc) :
    (DocumentTable.append_scan_cache st now document).pool = st.pool
    ∧ (DocumentTable.append_scan_cache st now document).redis = st.redis
    ∧ (DocumentTable.append_scan_cache st now document).dos = st.dos
    ∧ (DocumentTable.append_scan_cache st now document).redisOk = st.redisOk
    ∧ (DocumentTable.append_scan_cache st now document).dosOk = st.dosOk
    ∧ (∀ e, st.poolAll = some e → now < e.refreshAt →
        (DocumentTable.append_scan_cache st now document).poolAll
          = some { e with value := e.value ++ [document] }) := by
  unfold DocumentTable.append_scan_cache
  rcases h : st.poolAll with _ | e
  · simp [h]
  · by_cases h1 : now < e.refreshAt
    · simp [h, slotFetch, h1]
    · by_cases h2 : now < e.expireAt <;> simp [h, slotFetch, h1, h2]
/-- C6: with `docs` the stored document list the call observes and `o`
the comparable stored document selected by the code's supersession rule,
`save_document` of a document that is not newer returns failure and
performs no state change beyond its initial read (in particular the
durable document store is untouched); `save_document` of a newer
document removes the superseded document, appends the new one, persists
the updated list through the write cascade, and appends the new
document in place to a live `'all_documents'` scan-cache entry. -/
theorem c6_document_supersession :
    ∀ (st : DocState) (now : Int) (document o : Doc) (docs : List Doc),
      (DocumentTable.get_documents st now document.identifier).1 = docs →
      DocumentTable.find_old docs (get_document_type document) = some o →
      (doc_is_expired document o = true →
        (DocumentTable.save_document st now document).2 = false
        ∧ (DocumentTable.save_document st now document).1
            = (DocumentTable.get_documents st now document.identifier).2
        ∧ (DocumentTable.save_document st now document).1.dos = st.dos)
      ∧ (doc_is_expired document o = false →
        poolFetch (DocumentTable.save_document st now document).1.pool
            document.identifier now
          = (some (removeFirst docs o ++ [document]), false)
        ∧ (DocumentTable.save_document st now document).2 = (st.redisOk || st.dosOk)
        ∧ (st.redisOk = true →
            alistLookup (DocumentTable.save_document st now document).1.redis
              document.identifier = some (removeFirst docs o ++ [document]))
        ∧ (st.dosOk = true →
            alistLookup (DocumentTable.save_document st now document).1.dos
              document.identifier = some (removeFirst docs o ++ [document]))
        ∧ (∀ e, st.poolAll = some e → now < e.refreshAt →
            (DocumentTable.save_document st now document).1.poolAll
              = some { e with value := e.value ++ [document] })) := by
  intro st now document o docs hdocs hold
  rcases hLd : DocTask.load st now document.identifier with ⟨r, stL⟩
  have hG : DocumentTable.get_documents st now document.identifier = (r.getD [], stL) := by
    simp [DocumentTable.get_documents, hLd]
  have hFr := docTask_load_frame st now document.identifier
  rw [hLd] at hFr
  dsimp only at hFr
  obtain ⟨hfA, hfD, hfO1, hfO2⟩ := hFr
  rw [hG] at hdocs
  dsimp only at hdocs
  have hsave : DocumentTable.save_document st now document
      = match DocumentTable.find_old docs (get_document_type document) with
        | some o =>
          if doc_is_expired document o then (stL, false)
          else
            DocTask.save (DocumentTable.append_scan_cache stL now document) now
              document.identifier (removeFirst docs o ++ [document])
        | none =>
          DocTask.save (DocumentTable.append_scan_cache stL now document) now
            document.identifier (docs ++ [document]) := by
    unfold DocumentTable.save_document
    dsimp only
    rw [hG]
    dsimp only
    rw [hdocs]
  rw [hold] at hsave
  dsimp only at hsave
  constructor
  · intro hexp
    rw [hsave, if_pos hexp, hG]
    exact ⟨rfl, rfl, hfD⟩
  · intro hexp
    rw [hsave, if_neg (by rw [hexp]; exact Bool.false_ne_true)]
    obtain ⟨hA1, hA2, hA3, hA4, hA5, hA6⟩ :=
      append_scan_cache_effects stL now document
    obtain ⟨hS1, hS2, hS3, hS4, hS5⟩ :=
      docTask_save_effects (DocumentTable.append_scan_cache stL now document) now
        document.identifier (removeFirst docs o ++ [document])
    refine ⟨?_, ?_, ?_, ?_, ?_⟩
    · rw [hS2, hA1, poolFetch_update_self]
    · rw [hS1, hA4, hA5, hfO1, hfO2]
    · intro hr
      exact hS4 (by rw [hA4, hfO1]; exact hr)
    · intro hd
      exact hS5 (by rw [hA5, hfO2]; exact hd)
    · intro e he hfresh
      rw [hS3, hA6 e (by rw [hfA]; exact he) hfresh]
/-- Witness for C6 at concrete inputs: an older visa (time 50) against
the stored time-100 visa is rejected without change; a newer visa
(time 200) replaces it in the written list and is appended to the live
scan cache. -/
theorem c6_document_supersession_witness :
    ((DocumentTable.save_document docSt0 1 visa50).2 = false
      ∧ (DocumentTable.save_document docSt0 1 visa50).1
          = (DocumentTable.get_documents docSt0 1 visa50.identifier).2
      ∧ (DocumentTable.save_document docSt0 1 visa50).1.dos = docSt0.dos)
    ∧ (poolFetch (DocumentTable.save_document docSt0 1 visa200).1.pool visa200.identifier 1
        = (some (removeFirst [visa100] visa100 ++ [visa200]), false)
      ∧ (DocumentTable.save_document docSt0 1 visa200).2 = (docSt0.redisOk || docSt0.dosOk)
      ∧ alistLookup (DocumentTable.save_document docSt0 1 visa200).1.redis visa200.identifier
          = some (removeFirst [visa100] visa100 ++ [visa200])
      ∧ alistLookup (DocumentTable.save_document docSt0 1 visa200).1.dos visa200.identifier
          = some (removeFirst [visa100] visa100 ++ [visa200])
      ∧ (DocumentTable.save_document docSt0 1 visa200).1.poolAll
          = some { CacheEntry.mk' [visa100] SCAN_CACHE_EXPIRES SCAN_CACHE_REFRESH 0 with
              value := (CacheEntry.mk' [visa100] SCAN_CACHE_EXPIRES
                  SCAN_CACHE_REFRESH 0).value ++ [visa200] }) := by
  refine ⟨(c6_document_supersession docSt0 1 visa50 visa100 [visa100]
      (by decide) (by decide)).1 (by decide), ?_⟩
  have h := (c6_document_supersession docSt0 1 visa200 visa100 [visa100]
      (by decide) (by decide)).2 (by decide)
  exact ⟨h.1, h.2.1, h.2.2.1 (by decide), h.2.2.2.1 (by decide),
    h.2.2.2.2 (CacheEntry.mk' [visa100] SCAN_CACHE_EXPIRES SCAN_CACHE_REFRESH 0)
      rfl (by decide)⟩
